import Mathlib

/-!
Shallow embedding of `instaloader/instaloadercontext.py` (rate limiting,
request execution with redirects and retries, login and session handling,
and GraphQL pagination), together with theorems settling the spec claims.

Time is modelled with integer monotonic timestamps, so Python's `round`
on an exact value is the identity.  Python exceptions are modelled as
explicit error values; a Python-level crash that no handler catches
(for example `ValueError` from `str.index`, or `min` of an empty list)
is modelled by a dedicated error constructor or by `Option.none`.
-/

namespace Instaloader

/-! ### Rate limiter: `graphql_query_waittime` (instaloadercontext.py lines 196-206) -/

def slidingWindow : Int := 660

/-- Line 202: `timestamps = list(filter(lambda t: t > current_time - sliding_window, timestamps))`. -/
def pruneTimestamps (current_time : Int) (ts : List Int) : List Int :=
  ts.filter (fun t => decide (current_time - slidingWindow < t))

/-- Python `min` over a list; `none` models the `ValueError` on an empty list. -/
def listMin : List Int → Option Int
  | [] => none
  | t :: ts => some (ts.foldl min t)

/-- Lines 196-206.  `timestamps = self.previous_queries.get(query_hash)` is the
`Option (List Int)` argument; the result is the computed wait time, with `none`
modelling the uncaught `ValueError` of `min([])`. -/
def graphql_query_waittime (current_time : Int) (timestamps : Option (List Int))
    (untracked_queries : Bool) : Option Int :=
  match timestamps with
  | none => some (if untracked_queries then slidingWindow else 0)
  | some ts =>
    if ts.isEmpty then some (if untracked_queries then slidingWindow else 0)
    else
      let pruned := pruneTimestamps current_time ts
      if pruned.length < 100 ∧ untracked_queries = false then some 0
      else
        match listMin pruned with
        | none => none
        | some m => some (m + slidingWindow - current_time + 6)

lemma foldl_min_mem (l : List Int) (a : Int) :
    l.foldl min a = a ∨ l.foldl min a ∈ l := by
  induction l generalizing a with
  | nil => exact Or.inl rfl
  | cons b t ih =>
    simp only [List.foldl_cons]
    rcases ih (min a b) with h | h
    · rcases min_choice a b with hc | hc
      · exact Or.inl (h.trans hc)
      · exact Or.inr (by rw [h, hc]; exact List.mem_cons_self b t)
    · exact Or.inr (List.mem_cons_of_mem b h)

lemma listMin_mem {l : List Int} {m : Int} (h : listMin l = some m) : m ∈ l := by
  cases l with
  | nil => simp [listMin] at h
  | cons a t =>
    simp only [listMin, Option.some.injEq] at h
    subst h
    rcases foldl_min_mem t a with h | h
    · rw [h]; exact List.mem_cons_self a t
    · exact List.mem_cons_of_mem a h

lemma pruneTimestamps_lower {current_time : Int} {ts : List Int} {m : Int}
    (h : m ∈ pruneTimestamps current_time ts) : current_time - slidingWindow < m := by
  have := List.of_mem_filter h
  exact of_decide_eq_true this

/-- Claim C2: for a tracked admission check (`untracked_queries = false`), after
pruning timestamps older than 660 time-units, if the pruned list has fewer than
100 entries the wait time is 0; if it has 100 or more entries the wait time
equals `oldest + 660 - now + 6`, and this value is never negative. -/
theorem graphql_query_waittime_tracked_spec (current_time : Int) (ts : List Int) :
    ((pruneTimestamps current_time ts).length < 100 →
      graphql_query_waittime current_time (some ts) false = some 0) ∧
    (∀ m, 100 ≤ (pruneTimestamps current_time ts).length →
      listMin (pruneTimestamps current_time ts) = some m →
      graphql_query_waittime current_time (some ts) false
          = some (m + slidingWindow - current_time + 6) ∧
        0 ≤ m + slidingWindow - current_time + 6) := by
  constructor
  · intro hlt
    cases ts with
    | nil => rfl
    | cons a t =>
      simp only [graphql_query_waittime, List.isEmpty_cons, Bool.false_eq_true, if_false]
      rw [if_pos ⟨hlt, by simp⟩]
  · intro m hge hmin
    have hne : ts ≠ [] := by
      intro h
      rw [h] at hge
      simp [pruneTimestamps] at hge
    have hmem : m ∈ pruneTimestamps current_time ts := listMin_mem hmin
    have hlow : current_time - slidingWindow < m := pruneTimestamps_lower hmem
    constructor
    · cases ts with
      | nil => exact absurd rfl hne
      | cons a t =>
        simp only [graphql_query_waittime, List.isEmpty_cons, Bool.false_eq_true, if_false]
        rw [if_neg (by intro hc; omega), hmin]
    · have : (0:Int) < slidingWindow := by norm_num [slidingWindow]
      omega

set_option maxRecDepth 10000 in
/-- Witness for C2 at a concrete input: 100 timestamps at time 900, checked at
time 1000; the wait is `900 + 660 - 1000 + 6 = 566`. -/
theorem graphql_query_waittime_tracked_spec_witness :
    graphql_query_waittime 1000 (some (List.replicate 100 900)) false = some 566 ∧
      (0:Int) ≤ 566 := by
  have h := (graphql_query_waittime_tracked_spec 1000 (List.replicate 100 900)).2 900
    (by decide) (by decide)
  refine ⟨?_, by norm_num⟩
  rw [h.1]
  norm_num [slidingWindow]

/-! ### Request executor: `get_json` (instaloadercontext.py lines 184-265)

The HTTP transport is modelled by a function from URL to response, indexed by
the attempt number so that per-attempt behaviour can be expressed.  A response
body is modelled by whether `resp.json()` succeeds and by its optional
`status` and `message` fields, the only parts `get_json` inspects. -/

structure Body where
  decodable : Bool
  statusField : Option String
  messageField : Option String
deriving DecidableEq

structure HttpResp where
  status_code : Nat
  is_redirect : Bool
  locationHdr : String
  body : Body
deriving DecidableEq

/-- `needle.data.isPrefixOf (hay.data.drop i)`: the needle occurs in the hay at
position `i`. -/
def substrAt (needle hay : String) (i : Nat) : Bool :=
  needle.data.isPrefixOf (hay.data.drop i)

/-- Python `hay.index(needle)`: smallest occurrence position, `none` when the
needle does not occur (Python raises `ValueError` there). -/
def strIndex (needle hay : String) : Option Nat :=
  (List.range (hay.data.length + 1)).find? (fun i => substrAt needle hay i)

inductive FetchResult where
  | done (r : HttpResp)
  | valueError
  | outOfFuel
deriving DecidableEq

/-- Lines 222-230: issue the GET without automatic redirects, then loop while the
response is a redirect.  `redirect_url.index(hostUrl) == 0` keeps
following; a found occurrence at a nonzero position breaks the loop; no
occurrence at all makes `str.index` raise `ValueError`, which no handler in
`get_json` catches.  `fuel` bounds the loop for termination. -/
def followRedirects (serve : String → HttpResp) (host : String) :
    Nat → HttpResp → FetchResult
  | 0, r => if r.is_redirect then .outOfFuel else .done r
  | fuel + 1, r =>
    if r.is_redirect then
      let redirectUrl := r.locationHdr
      match strIndex ("https://" ++ host ++ "/") redirectUrl with
      | some 0 =>
        followRedirects serve host fuel
          (serve (if redirectUrl.endsWith "/" then redirectUrl else redirectUrl ++ "/"))
      | some _ => .done r
      | none => .valueError
    else .done r

inductive QErr where
  | notFound
  | tooManyRequests
  | connection (msg : String)
  | jsonDecode
  | valueError
  | outOfFuel
deriving DecidableEq

def statusErrMsg (n : Nat) : String := "HTTP error code " ++ toString n ++ "."

def jsonStatusMsg (s : String) (m : Option String) : String :=
  match m with
  | some msg => "Returned \"" ++ s ++ "\" status, message \"" ++ msg ++ "\"."
  | none => "Returned \"" ++ s ++ "\" status."

/-- One attempt of the `try` block of `get_json` (lines 221-244): fetch with the
redirect loop, then map the status code (404, 429, other non-200) and check the
decoded JSON body's `status` field. -/
def attemptOnce (serve : String → HttpResp) (host path : String)
    (redirectFuel : Nat) : Except QErr Body :=
  match followRedirects serve host redirectFuel
      (serve ("https://" ++ host ++ "/" ++ path)) with
  | .valueError => .error .valueError
  | .outOfFuel => .error .outOfFuel
  | .done resp =>
    if resp.status_code = 404 then .error .notFound
    else if resp.status_code = 429 then .error .tooManyRequests
    else if resp.status_code ≠ 200 then .error (.connection (statusErrMsg resp.status_code))
    else if resp.body.decodable = false then .error .jsonDecode
    else
      match resp.body.statusField with
      | some s =>
        if s ≠ "ok" then .error (.connection (jsonStatusMsg s resp.body.messageField))
        else .ok resp.body
      | none => .ok resp.body

/-- Modelled from the spec: the exceptions module (`instaloader/exceptions.py`)
is not part of the sources at hand, so the class hierarchy behind the `except`
clause at line 245 is taken from spec section 7: `TooManyRequests`,
`ConnectionFailure` and malformed JSON are retried, while `NotFound` is "never
retried" and an uncaught `ValueError` is no exception of the library at all. -/
def caughtByRetry : QErr → Bool
  | .tooManyRequests => true
  | .connection _ => true
  | .jsonDecode => true
  | .notFound => false
  | .valueError => false
  | .outOfFuel => false

/-- The message Python's `str(err)` would give, used to build
`error_string = "JSON Query to path: err"` at line 246. -/
def errText : QErr → String
  | .notFound => "404"
  | .tooManyRequests => "429 - Too Many Requests"
  | .connection m => m
  | .jsonDecode => "JSON decode error"
  | .valueError => "substring not found"
  | .outOfFuel => ""

inductive CallResult where
  | success (b : Body) (attempts : Nat)
  | raised (e : QErr) (attempts : Nat)
deriving DecidableEq

/-- Lines 219-265 without the rate-limiter bookkeeping: one attempt, and on a
caught failure either raise `ConnectionException(error_string)` when
`_attempt == self.max_connection_attempts` (line 247) or recurse with
`_attempt + 1` (line 262).  The `attempts` field counts the attempts made. -/
def get_json_from (serve : Nat → String → HttpResp) (host path : String)
    (maxAttempts redirectFuel : Nat) : Nat → Nat → CallResult
  | _, 0 => .raised .outOfFuel 0
  | attempt, fuel + 1 =>
    match attemptOnce (serve attempt) host path redirectFuel with
    | .ok b => .success b attempt
    | .error e =>
      if caughtByRetry e then
        if attempt = maxAttempts then
          .raised (.connection ("JSON Query to " ++ path ++ ": " ++ errText e)) attempt
        else
          get_json_from serve host path maxAttempts redirectFuel (attempt + 1) fuel
      else .raised e attempt

def get_json (serve : Nat → String → HttpResp) (host path : String)
    (maxAttempts redirectFuel : Nat) : CallResult :=
  get_json_from serve host path maxAttempts redirectFuel 1 maxAttempts

/-! #### Claim C1 (cross-host redirects) -/

def bodyOk : Body := { decodable := true, statusField := some "ok", messageField := none }

/-- A server whose response to the original request redirects to another host,
`https://x/q`, in which the string `https://h/` never occurs. -/
def serveCrossHost : Nat → String → HttpResp := fun _ url =>
  if url = "https://h/p" then
    { status_code := 302, is_redirect := true, locationHdr := "https://x/q", body := bodyOk }
  else
    { status_code := 200, is_redirect := false, locationHdr := "", body := bodyOk }

/-- Claim C1 (code bug): on a redirect to a different host whose URL does not
contain `https://<original-host>/` at all, `redirect_url.index(...)` at line 226
raises an uncaught `ValueError`, so `get_json` crashes on the first attempt
instead of breaking the loop and processing the last response received. -/
theorem get_json_cross_host_redirect_raises_value_error :
    get_json serveCrossHost "h" "p" 3 5 = .raised .valueError 1 ∧
      caughtByRetry .valueError = false := by
  constructor
  · rfl
  · rfl

/-! #### Claim C6 (404 is terminal on the first attempt) -/

/-- Claim C6: when the server's response (after the redirect loop) has status
code 404, `get_json` raises `NotFound` on the first attempt; the error is not
caught by the retry handler, so no retry happens. -/
theorem get_json_404_first_attempt_no_retry (serve : Nat → String → HttpResp)
    (host path : String) (maxAttempts redirectFuel : Nat)
    (hmax : 1 ≤ maxAttempts)
    (h404 : attemptOnce (serve 1) host path redirectFuel = .error .notFound) :
    get_json serve host path maxAttempts redirectFuel = .raised .notFound 1 := by
  unfold get_json
  cases maxAttempts with
  | zero => omega
  | succ n =>
    unfold get_json_from
    rw [h404]
    rfl

def serve404 : Nat → String → HttpResp := fun _ _ =>
  { status_code := 404, is_redirect := false, locationHdr := "", body := bodyOk }

/-- Witness for C6: a server that always answers 404. -/
theorem get_json_404_first_attempt_no_retry_witness :
    get_json serve404 "www.instagram.com" "explore" 3 5 = .raised .notFound 1 :=
  get_json_404_first_attempt_no_retry serve404 "www.instagram.com" "explore" 3 5
    (by decide) rfl

/-! #### Claim C7 (retry exhaustion) -/

lemma get_json_from_exhausts (serve : Nat → String → HttpResp) (host path : String)
    (maxAttempts redirectFuel : Nat) (err : Nat → QErr) :
    ∀ fuel attempt, 1 ≤ fuel → attempt + fuel = maxAttempts + 1 →
      (∀ a, attempt ≤ a → a ≤ maxAttempts →
        attemptOnce (serve a) host path redirectFuel = .error (err a) ∧
          caughtByRetry (err a) = true) →
      get_json_from serve host path maxAttempts redirectFuel attempt fuel =
        .raised (.connection ("JSON Query to " ++ path ++ ": " ++ errText (err maxAttempts)))
          maxAttempts := by
  intro fuel
  induction fuel with
  | zero => intro attempt h1 _ _; omega
  | succ f ih =>
    intro attempt _ hsum hall
    have hle : attempt ≤ maxAttempts := by omega
    obtain ⟨hfail, hcaught⟩ := hall attempt le_rfl hle
    unfold get_json_from
    rw [hfail]
    simp only [hcaught, if_true]
    by_cases hat : attempt = maxAttempts
    · subst hat
      simp
    · rw [if_neg hat]
      exact ih (attempt + 1) (by omega) (by omega)
        (fun a ha1 ha2 => hall a (by omega) ha2)

/-- Claim C7: when every attempt fails with an error the retry handler catches
(connection failure, malformed JSON, transport error), `get_json` makes exactly
`maxAttempts` attempts and then raises a connection failure carrying the last
error's message. -/
theorem get_json_retry_exhaustion (serve : Nat → String → HttpResp)
    (host path : String) (maxAttempts redirectFuel : Nat) (err : Nat → QErr)
    (hmax : 1 ≤ maxAttempts)
    (hfail : ∀ a, 1 ≤ a → a ≤ maxAttempts →
      attemptOnce (serve a) host path redirectFuel = .error (err a))
    (hcaught : ∀ a, 1 ≤ a → a ≤ maxAttempts → caughtByRetry (err a) = true) :
    get_json serve host path maxAttempts redirectFuel =
      .raised (.connection ("JSON Query to " ++ path ++ ": " ++ errText (err maxAttempts)))
        maxAttempts := by
  unfold get_json
  exact get_json_from_exhausts serve host path maxAttempts redirectFuel err maxAttempts 1
    hmax (by omega) (fun a ha1 ha2 => ⟨hfail a ha1 ha2, hcaught a ha1 ha2⟩)

def serve500 : Nat → String → HttpResp := fun _ _ =>
  { status_code := 500, is_redirect := false, locationHdr := "", body := bodyOk }

/-- Witness for C7: a server that always answers 500; with the default
`max_connection_attempts = 3` the call makes 3 attempts and raises the wrapped
message of the last error. -/
theorem get_json_retry_exhaustion_witness :
    get_json serve500 "h" "p" 3 5 =
      .raised (.connection "JSON Query to p: HTTP error code 500.") 3 := by
  have h := get_json_retry_exhaustion serve500 "h" "p" 3 5
    (fun _ => QErr.connection (statusErrMsg 500)) (by decide)
    (fun a _ _ => rfl) (fun a _ _ => rfl)
  rw [h]
  decide

/-! ### Session manager: anonymous session, login, persistence
(instaloadercontext.py lines 131-177 and 140-149)

Cookie jars and header sets are modelled as insertion-ordered association
lists with Python-`dict.update` semantics. -/

abbrev StrMap := List (String × String)

/-- `dict.update`: entries of `upd` override entries of `d`; keys not updated
keep their place, updated or new keys follow. -/
def dictUpdate (d upd : StrMap) : StrMap :=
  d.filter (fun p => (upd.find? (fun q => q.1 == p.1)).isNone) ++ upd

/-- `dict[k]` lookup, `none` modelling a Python `KeyError`. -/
def dictGet (d : StrMap) (k : String) : Option String :=
  (d.find? (fun p => p.1 == k)).map (fun p => p.2)

structure RSession where
  cookies : StrMap
  headers : StrMap
deriving DecidableEq

/-- The context state the claims observe: `self._session` (which line 174 can
set to Python `None`) and `self.username`. -/
structure Ctx where
  _session : Option RSession
  username : Option String
deriving DecidableEq

/-- Lines 111-129: the full default header dict, with five entries deleted when
`empty_session_only` is set. -/
def default_http_header (user_agent : String) (empty_session_only : Bool) : StrMap :=
  let header : StrMap :=
    [("Accept-Encoding", "gzip, deflate"),
     ("Accept-Language", "en-US,en;q=0.8"),
     ("Connection", "keep-alive"),
     ("Content-Length", "0"),
     ("Host", "www.instagram.com"),
     ("Origin", "https://www.instagram.com"),
     ("Referer", "https://www.instagram.com/"),
     ("User-Agent", user_agent),
     ("X-Instagram-AJAX", "1"),
     ("X-Requested-With", "XMLHttpRequest")]
  if empty_session_only then
    header.filter (fun p =>
      !(["Host", "Origin", "Referer", "X-Instagram-AJAX", "X-Requested-With"].contains p.1))
  else header

/-- Lines 134-136: the placeholder cookie set shared by `get_anonymous_session`
and `login`. -/
def placeholderCookies : StrMap :=
  [("sessionid", ""), ("mid", ""), ("ig_pr", "1"), ("ig_vw", "1920"),
   ("csrftoken", ""), ("s_network", ""), ("ds_user_id", "")]

/-- Lines 131-138. -/
def get_anonymous_session (user_agent : String) : RSession :=
  { cookies := dictUpdate [] placeholderCookies,
    headers := dictUpdate [] (default_http_header user_agent true) }

inductive LoginResult where
  | ok
  | badCredentials (msg : String)
  | connectionError (msg : String)
  | keyError (key : String)
deriving DecidableEq

/-- The server-side behaviour one `login` call observes: the csrftoken cookie
set by the GET to the root and by the login POST response (each `none` when the
response sets no such cookie, in which case the corresponding
`resp.cookies[csrftoken]` lookup raises an uncaught `KeyError`), the status
code of the POST, the cookies the exchange leaves on the candidate session,
and the username the follow-up `test_login` verification query reports
(`none` when the user field is null). -/
structure LoginServer where
  rootCsrf : Option String
  loginStatus : Nat
  loginCsrf : Option String
  loginCookies : StrMap
  verifyUsername : Option String
deriving DecidableEq

/-- Lines 155-177.  A fresh session gets the placeholder cookies and the full
default headers; the csrf-header updates at lines 163 and 167 read the
csrftoken cookie of the root GET and of the login POST response and raise an
uncaught `KeyError` when the response set none — note line 167 runs before the
status check at line 168, so this can pre-empt the non-200 branch.  On HTTP 200
the candidate session is adopted and the verification query's username is
compared with `user` (Python `user == self.test_login()`, where `test_login`
may give `None`); on a mismatch `self.username` and `self._session` are both
set to `None` and `BadCredentialsException` is raised.  On any other status
code the context is untouched and `ConnectionException` is raised. -/
def login (ctx : Ctx) (user_agent user passwd : String) (srv : LoginServer) :
    Ctx × LoginResult :=
  let session0 : RSession :=
    { cookies := dictUpdate [] placeholderCookies,
      headers := dictUpdate [] (default_http_header user_agent false) }
  match srv.rootCsrf with
  | none => (ctx, .keyError "csrftoken")
  | some rootTok =>
    let session1 : RSession :=
      { cookies := dictUpdate session0.cookies srv.loginCookies,
        headers := dictUpdate session0.headers [("X-CSRFToken", rootTok)] }
    match srv.loginCsrf with
    | none => (ctx, .keyError "csrftoken")
    | some loginTok =>
      let session2 : RSession :=
        { session1 with headers := dictUpdate session1.headers [("X-CSRFToken", loginTok)] }
      if srv.loginStatus = 200 then
        let ctx1 : Ctx := { ctx with _session := some session2 }
        if srv.verifyUsername = some user then
          ({ ctx1 with username := some user }, .ok)
        else
          ({ ctx1 with username := none, _session := none },
            .badCredentials "Login error! Check your credentials!")
      else (ctx, .connectionError "Login error! Connection error!")

/-! #### Claims C3 and C9 (login outcomes) -/

/-- A concrete context holding an anonymous session, and a server that answers
the login POST with 200 but verifies as a different username. -/
def ctxAnon : Ctx := { _session := some (get_anonymous_session "ua"), username := none }

def srvMismatch : LoginServer :=
  { rootCsrf := some "r", loginStatus := 200, loginCsrf := some "l",
    loginCookies := [("sessionid", "s1"), ("csrftoken", "l")],
    verifyUsername := some "bob" }

/-- Counterexample to C3 as stated: after a 200 login whose verification query
returns a different username, the context's session attribute is Python `None`,
not an anonymous session. -/
theorem login_mismatch_session_not_anonymous :
    (login ctxAnon "ua" "alice" "pw" srvMismatch).1._session = none ∧
      (login ctxAnon "ua" "alice" "pw" srvMismatch).1._session
        ≠ some (get_anonymous_session "ua") := by
  constructor
  · rfl
  · decide

/-- Claim C3 as amended: on a 200 login response whose verification query
returns a username different from the submitted one (so both csrf-cookie
lookups on the way there succeeded), `login` raises `BadCredentials`, clears
the authenticated username, and clears the session attribute to `None` (the
candidate session is discarded; no session, anonymous or otherwise,
remains). -/
theorem login_mismatch_clears_session_and_username (ctx : Ctx)
    (user_agent user passwd rootTok loginTok : String) (srv : LoginServer)
    (hroot : srv.rootCsrf = some rootTok) (hlogin : srv.loginCsrf = some loginTok)
    (h200 : srv.loginStatus = 200) (hmism : srv.verifyUsername ≠ some user) :
    login ctx user_agent user passwd srv =
      ({ _session := none, username := none },
        .badCredentials "Login error! Check your credentials!") := by
  simp only [login, hroot, hlogin]
  rw [if_pos h200, if_neg hmism]

/-- Witness for the amended C3 at a concrete mismatching login. -/
theorem login_mismatch_clears_session_and_username_witness :
    login ctxAnon "ua" "alice" "pw" srvMismatch =
      ({ _session := none, username := none },
        .badCredentials "Login error! Check your credentials!") :=
  login_mismatch_clears_session_and_username ctxAnon "ua" "alice" "pw" "r" "l"
    srvMismatch rfl rfl rfl (by decide)

/-- A context-preserving non-200 login response that sets no csrftoken cookie:
the cookie lookup at line 167 runs before the status check and raises
`KeyError`. -/
def srvDownNoCsrf : LoginServer :=
  { rootCsrf := some "r", loginStatus := 403, loginCsrf := none,
    loginCookies := [], verifyUsername := none }

/-- Counterexample to C9 as stated: a login whose POST response has status 403
and sets no csrftoken cookie makes `login` fail with an uncaught `KeyError`
from line 167 (which runs before the status check), not with
`ConnectionFailure`. -/
theorem login_non_200_without_csrf_cookie_raises_key_error :
    login ctxAnon "ua" "alice" "pw" srvDownNoCsrf = (ctxAnon, .keyError "csrftoken") ∧
      LoginResult.keyError "csrftoken"
        ≠ .connectionError "Login error! Connection error!" := by
  constructor
  · rfl
  · decide

/-- Claim C9 as amended: on a login response with a status code other than 200
that does carry a csrftoken cookie (as does the root GET), `login` raises
`ConnectionFailure` and returns the context exactly as it was — the candidate
session built during the call is never adopted; when the non-200 response sets
no csrftoken cookie, the call instead fails with an uncaught `KeyError` from
line 167, still leaving the context exactly as it was. -/
theorem login_non_200_preserves_context (ctx : Ctx)
    (user_agent user passwd rootTok : String) (srv : LoginServer)
    (hroot : srv.rootCsrf = some rootTok) (hnot : srv.loginStatus ≠ 200) :
    (∀ loginTok, srv.loginCsrf = some loginTok →
      login ctx user_agent user passwd srv =
        (ctx, .connectionError "Login error! Connection error!")) ∧
    (srv.loginCsrf = none →
      login ctx user_agent user passwd srv = (ctx, .keyError "csrftoken")) := by
  constructor
  · intro loginTok hlogin
    simp only [login, hroot, hlogin]
    rw [if_neg hnot]
  · intro hlogin
    simp only [login, hroot, hlogin]

def srvDown : LoginServer :=
  { rootCsrf := some "r", loginStatus := 403, loginCsrf := some "l",
    loginCookies := [("sessionid", "s1")], verifyUsername := some "alice" }

/-- Witness for the amended C9 at a concrete 403 login response carrying a
csrftoken cookie. -/
theorem login_non_200_preserves_context_witness :
    login ctxAnon "ua" "alice" "pw" srvDown =
      (ctxAnon, .connectionError "Login error! Connection error!") :=
  (login_non_200_preserves_context ctxAnon "ua" "alice" "pw" "r" srvDown
    rfl (by decide)).1 "l" rfl

/-! #### Claims C4 and C8 (session persistence) -/

/-- Line 140-141: `pickle.dump(requests.utils.dict_from_cookiejar(...))`; the
persisted blob is the cookie name-to-value mapping and nothing else. -/
def save_session_to_file (s : RSession) : StrMap := s.cookies

inductive LoadResult where
  | loaded (c : Ctx)
  | loadSessionFailure
deriving DecidableEq

/-- Lines 143-149.  Modelled from the spec for the failure kind: the exceptions
module is not among the sources at hand; when the restored cookie mapping has
no `csrftoken` entry, the lookup `session.cookies.get_dict()[csrftoken]` at
line 147 fails, which spec sections 4.1 and 7 call `LoadSessionFailure`. -/
def load_session_from_file (user_agent username : String) (blob : StrMap) : LoadResult :=
  match dictGet blob "csrftoken" with
  | none => .loadSessionFailure
  | some tok =>
    .loaded
      { _session := some
          { cookies := blob,
            headers := dictUpdate (dictUpdate [] (default_http_header user_agent false))
              [("X-CSRFToken", tok)] },
        username := some username }

/-- Claim C4: restoring a persisted cookie mapping that lacks the `csrftoken`
cookie fails with `LoadSessionFailure`. -/
theorem load_session_missing_csrftoken_fails (user_agent username : String)
    (blob : StrMap) (habsent : dictGet blob "csrftoken" = none) :
    load_session_from_file user_agent username blob = .loadSessionFailure := by
  unfold load_session_from_file
  rw [habsent]

/-- Witness for C4: a persisted mapping holding only a `sessionid` cookie. -/
theorem load_session_missing_csrftoken_fails_witness :
    load_session_from_file "ua" "alice" [("sessionid", "s1")] = .loadSessionFailure :=
  load_session_missing_csrftoken_fails "ua" "alice" [("sessionid", "s1")] (by decide)

/-- A session whose cookie mapping has no `csrftoken` entry. -/
def sessionNoCsrf : RSession :=
  { cookies := [("sessionid", "s1")], headers := [("User-Agent", "ua")] }

/-- Counterexample to C8 as stated: for a session whose cookie mapping lacks
`csrftoken`, persisting and then restoring does not yield a session at all —
the restore fails — so the round trip does not reproduce the cookie mapping. -/
theorem session_roundtrip_fails_without_csrftoken :
    load_session_from_file "ua" "alice" (save_session_to_file sessionNoCsrf)
      = .loadSessionFailure := by
  decide

/-- Claim C8 as amended: for every session whose string-to-string cookie
mapping contains a `csrftoken` entry, persisting and then restoring with the
original username yields a session whose cookie mapping equals the original
exactly and whose authenticated username is the original one; the persisted
blob is the cookie mapping alone, so the original headers do not pass through
(the restored headers are rebuilt from the defaults and the csrf cookie). -/
theorem session_roundtrip_with_csrftoken (s : RSession) (user_agent username tok : String)
    (htok : dictGet s.cookies "csrftoken" = some tok) :
    load_session_from_file user_agent username (save_session_to_file s) =
      .loaded
        { _session := some
            { cookies := s.cookies,
              headers := dictUpdate (dictUpdate [] (default_http_header user_agent false))
                [("X-CSRFToken", tok)] },
          username := some username } ∧
      (∀ hs : StrMap, save_session_to_file { s with headers := hs } = save_session_to_file s) := by
  constructor
  · unfold load_session_from_file save_session_to_file
    rw [htok]
  · intro hs
    rfl

/-- Witness for the amended C8: a concrete authenticated-looking session
round-trips its cookie mapping and username. -/
theorem session_roundtrip_with_csrftoken_witness :
    load_session_from_file "ua" "alice"
        (save_session_to_file
          { cookies := [("sessionid", "s1"), ("csrftoken", "c1")],
            headers := [("User-Agent", "ua")] }) =
      .loaded
        { _session := some
            { cookies := [("sessionid", "s1"), ("csrftoken", "c1")],
              headers := dictUpdate (dictUpdate [] (default_http_header "ua" false))
                [("X-CSRFToken", "c1")] },
          username := some "alice" } :=
  (session_roundtrip_with_csrftoken
    { cookies := [("sessionid", "s1"), ("csrftoken", "c1")],
      headers := [("User-Agent", "ua")] }
    "ua" "alice" "c1" (by decide)).1

/-! ### Pagination iterator: `graphql_node_list` (instaloadercontext.py lines 295-308)

The server is modelled by the list of edge structures the successive
`graphql_query` calls return, consumed in order.  Since the loop only ever
reads and writes the `first` and `after` keys of `query_variables`, the
variables dict is modelled by those two optional entries.  The run returns the
yielded nodes, the snapshot of the variables at each issued query (so its
length is the number of queries), and the final state of the caller's
variables dict. -/

structure PageInfo where
  has_next_page : Bool
  end_cursor : String
deriving DecidableEq

structure Edge (α : Type) where
  node : α
deriving DecidableEq

structure EdgeStruct (α : Type) where
  edges : List (Edge α)
  page_info : PageInfo
deriving DecidableEq

structure QueryVars where
  first : Option Int
  after : Option String
deriving DecidableEq

def GRAPHQL_PAGE_LENGTH : Int := 200

/-- Lines 301-308: yield each edge's node; while `page_info.has_next_page`,
set `query_variables[after] = page_info[end_cursor]` and query again. -/
def nodeListLoop {α : Type} : List (EdgeStruct α) → QueryVars →
    List α × List QueryVars × QueryVars
  | [], v => ([], [], v)
  | es :: rest, v =>
    if es.page_info.has_next_page then
      let v2 : QueryVars := { v with after := some es.page_info.end_cursor }
      let r := nodeListLoop rest v2
      (es.edges.map Edge.node ++ r.1, v :: r.2.1, r.2.2)
    else (es.edges.map Edge.node, [v], v)

/-- Lines 295-300: `query_variables[first] = GRAPHQL_PAGE_LENGTH`, then the
first query and the loop. -/
def graphql_node_list {α : Type} (pages : List (EdgeStruct α))
    (query_variables : QueryVars) : List α × List QueryVars × QueryVars :=
  nodeListLoop pages { query_variables with first := some GRAPHQL_PAGE_LENGTH }

lemma nodeListLoop_run {α : Type} (lastPage : EdgeStruct α)
    (hlast : lastPage.page_info.has_next_page = false) :
    ∀ (front : List (EdgeStruct α)) (v : QueryVars),
      (∀ p ∈ front, p.page_info.has_next_page = true) →
      nodeListLoop (front ++ [lastPage]) v =
        (((front ++ [lastPage]).map fun p => p.edges.map Edge.node).flatten,
         v :: front.map (fun p => { v with after := some p.page_info.end_cursor }),
         (front.map (fun p => { v with after := some p.page_info.end_cursor })).getLastD v) := by
  intro front
  induction front with
  | nil =>
    intro v _
    simp [nodeListLoop, hlast]
  | cons p front ih =>
    intro v hfront
    have hp : p.page_info.has_next_page = true := hfront p (List.mem_cons_self p front)
    have ih2 := ih { v with after := some p.page_info.end_cursor }
      (fun q hq => hfront q (List.mem_cons_of_mem p hq))
    simp only [List.cons_append, nodeListLoop, hp, if_true, List.append_eq, ih2,
      List.map_cons, List.flatten_cons, List.getLastD_cons]

/-- Claim C5: over `N` server pages where page `N` is the first with
`has_next_page = false`, `graphql_node_list` yields exactly the concatenation
of all pages' edge nodes in server order, issues exactly `N` queries
(`N = front.length + 1`), sets `variables.first` to 200 before the first
query, and sets `variables.after` to each page's `end_cursor` before the
following query. -/
theorem graphql_node_list_paginates {α : Type} (front : List (EdgeStruct α))
    (lastPage : EdgeStruct α) (query_variables : QueryVars)
    (hfront : ∀ p ∈ front, p.page_info.has_next_page = true)
    (hlast : lastPage.page_info.has_next_page = false) :
    graphql_node_list (front ++ [lastPage]) query_variables =
      (((front ++ [lastPage]).map fun p => p.edges.map Edge.node).flatten,
       { query_variables with first := some GRAPHQL_PAGE_LENGTH } ::
         front.map (fun p =>
           { first := some GRAPHQL_PAGE_LENGTH, after := some p.page_info.end_cursor }),
       (front.map (fun p =>
           { first := some GRAPHQL_PAGE_LENGTH, after := some p.page_info.end_cursor })).getLastD
         { query_variables with first := some GRAPHQL_PAGE_LENGTH }) ∧
    (graphql_node_list (front ++ [lastPage]) query_variables).2.1.length
      = front.length + 1 := by
  have h := nodeListLoop_run lastPage hlast front
    { query_variables with first := some GRAPHQL_PAGE_LENGTH } hfront
  constructor
  · exact h
  · rw [graphql_node_list, h]
    simp

/-- Witness for C5: three pages of nodes `[1,2]`, `[3]`, `[4]`; all nodes are
yielded in order, three queries are issued, and the variables carry
`first = 200` and the successive cursors. -/
theorem graphql_node_list_paginates_witness :
    graphql_node_list
        [{ edges := [⟨1⟩, ⟨2⟩], page_info := { has_next_page := true, end_cursor := "c1" } },
         { edges := [⟨3⟩], page_info := { has_next_page := true, end_cursor := "c2" } },
         { edges := ([⟨4⟩] : List (Edge Nat)), page_info := { has_next_page := false, end_cursor := "c3" } }]
        { first := some 7, after := none } =
      ([1, 2, 3, 4],
       [{ first := some 200, after := none },
        { first := some 200, after := some "c1" },
        { first := some 200, after := some "c2" }],
       { first := some 200, after := some "c2" }) := by
  have h := graphql_node_list_paginates
    [{ edges := [⟨1⟩, ⟨2⟩], page_info := { has_next_page := true, end_cursor := "c1" } },
     { edges := ([⟨3⟩] : List (Edge Nat)), page_info := { has_next_page := true, end_cursor := "c2" } }]
    { edges := [⟨4⟩], page_info := { has_next_page := false, end_cursor := "c3" } }
    { first := some 7, after := none } (by decide) rfl
  simpa [GRAPHQL_PAGE_LENGTH] using h.1

/-- Claim C10: `graphql_node_list` overwrites the caller's `first` entry with
200 before the first query, discarding any caller-supplied page size; it sets
the `after` entry to each advanced-past page's `end_cursor`; and these updates
are the state of the caller's variables dict when iteration ends. -/
theorem graphql_node_list_mutates_query_variables {α : Type}
    (front : List (EdgeStruct α)) (lastPage : EdgeStruct α)
    (query_variables : QueryVars)
    (hfront : ∀ p ∈ front, p.page_info.has_next_page = true)
    (hlast : lastPage.page_info.has_next_page = false) :
    (graphql_node_list (front ++ [lastPage]) query_variables).2.1.head?
      = some { query_variables with first := some GRAPHQL_PAGE_LENGTH } ∧
    (graphql_node_list (front ++ [lastPage]) query_variables).2.2
      = (front.map (fun p =>
          { first := some GRAPHQL_PAGE_LENGTH, after := some p.page_info.end_cursor })).getLastD
        { query_variables with first := some GRAPHQL_PAGE_LENGTH } ∧
    ((graphql_node_list (front ++ [lastPage]) query_variables).2.2).first
      = some GRAPHQL_PAGE_LENGTH := by
  have h := nodeListLoop_run lastPage hlast front
    { query_variables with first := some GRAPHQL_PAGE_LENGTH } hfront
  rw [graphql_node_list, h]
  refine ⟨rfl, rfl, ?_⟩
  have : ∀ l : List (EdgeStruct α),
      ((l.map (fun p =>
        ({ first := some GRAPHQL_PAGE_LENGTH,
           after := some p.page_info.end_cursor } : QueryVars))).getLastD
        { query_variables with first := some GRAPHQL_PAGE_LENGTH }).first
      = some GRAPHQL_PAGE_LENGTH := by
    intro l
    induction l with
    | nil => rfl
    | cons q t ih =>
      rw [List.map_cons, List.getLastD_cons]
      cases t with
      | nil => rfl
      | cons r t2 => simpa using ih
  exact this front

/-- Witness for C10: after a two-page run started with a caller-supplied page
size of 7, the caller's variables hold `first = 200` and the first page's
cursor. -/
theorem graphql_node_list_mutates_query_variables_witness :
    (graphql_node_list
        [{ edges := [⟨10⟩], page_info := { has_next_page := true, end_cursor := "k1" } },
         { edges := ([⟨20⟩] : List (Edge Nat)), page_info := { has_next_page := false, end_cursor := "k2" } }]
        { first := some 7, after := some "stale" }).2.1.head?
      = some { first := some 200, after := some "stale" } ∧
    (graphql_node_list
        [{ edges := [⟨10⟩], page_info := { has_next_page := true, end_cursor := "k1" } },
         { edges := ([⟨20⟩] : List (Edge Nat)), page_info := { has_next_page := false, end_cursor := "k2" } }]
        { first := some 7, after := some "stale" }).2.2
      = { first := some 200, after := some "k1" } := by
  have h := graphql_node_list_mutates_query_variables
    [{ edges := ([⟨10⟩] : List (Edge Nat)), page_info := { has_next_page := true, end_cursor := "k1" } }]
    { edges := [⟨20⟩], page_info := { has_next_page := false, end_cursor := "k2" } }
    { first := some 7, after := some "stale" } (by decide) rfl
  exact ⟨h.1, h.2.1⟩

end Instaloader
